import Mathlib

/-
  Verification development for the SentinelAI content-analysis backend.

  The detection-and-scoring engine of `backend/shield_engine.py` (class
  `AdShield`) is embedded shallowly: text is a `List Char`, Python ints and
  floats are modelled as `ℚ` (exact arithmetic; the source uses IEEE doubles
  for the fixed weights 0.4/0.3/0.3, which this embedding idealises as exact
  rationals), and `Dict` results become Lean structures.  The external `re`
  regex library and the optional toxicity classifier are not re-implemented:
  they are abstracted as the `ReEngine` parameter, whose fields return the
  match lists (tagged with their category/type, in iteration order) that the
  Python pattern tables would produce.  Everything downstream of the match
  lists is translated from the source line by line.  The narrative-enrichment
  module `backend/gemini_analyzer.py` is embedded with the external JSON
  library (`json.loads` / `json.dumps`) and the generative model response
  abstracted as parameters.
-/

namespace SentinelAI

/-- Fold of `max` over a list of rationals starting from `0`; models the
Python idiom `total = 0; for x: total = max(total, x)` and, for the bias
scores dictionary whose values are all nonnegative, `max(d.values())`. -/
def listMax (l : List ℚ) : ℚ := l.foldl max 0

/-- Python substring containment `needle in hay`. -/
def pyIn (needle hay : List Char) : Bool :=
  (List.range (hay.length + 1)).any fun i => needle.isPrefixOf (hay.drop i)

/-- Python `str.strip()` (leading and trailing whitespace removed). -/
def pyStrip (s : List Char) : List Char :=
  ((s.dropWhile Char.isWhitespace).reverse.dropWhile Char.isWhitespace).reverse

/-- Python `str.lower()`, modelled characterwise. -/
def pyLower (s : List Char) : List Char := s.map Char.toLower

/-- Python slice `s[a:b]` for nonnegative clamped bounds. -/
def pySlice (s : List Char) (a b : Nat) : List Char := (s.take b).drop a

/-- Python `int()` applied to a number: truncation toward zero. -/
def pyInt (q : ℚ) : ℤ := if 0 ≤ q then q.floor else q.ceil

/-- One regex match produced by `re.finditer` on an injection pattern,
tagged with the pattern-table category it came from (`match.start()`,
`match.end()`, `match.group()`). -/
structure InjMatch where
  category : String
  start : Nat
  stop : Nat
  matched : String
deriving Repr, DecidableEq

/-- One entry of the `indices` list built by `_analyze_prompt_injection`. -/
structure InjDetection where
  start : Nat
  stop : Nat
  type : String
  severity : String
  pattern : String
deriving Repr, DecidableEq

/-- One regex match produced by `re.finditer` on a PII pattern. -/
structure PiiMatch where
  piiType : String
  start : Nat
  stop : Nat
deriving Repr, DecidableEq

/-- One entry of the `indices` list built by `_analyze_pii`. -/
structure PiiDetection where
  start : Nat
  stop : Nat
  type : String
  piiType : String
  confidence : ℚ
deriving Repr, DecidableEq

/-- One entry of the `indices` list built by `_analyze_bias`. -/
structure BiasDetection where
  start : Nat
  stop : Nat
  type : String
  biasType : String
  intensity : ℤ
deriving Repr, DecidableEq

/-- The dict returned by `_analyze_prompt_injection`. -/
structure InjReport where
  score : ℤ
  detected : Bool
  indices : List InjDetection
deriving Repr, DecidableEq

/-- The dict returned by `_analyze_pii`. -/
structure PiiReport where
  score : ℤ
  detected : Bool
  indices : List PiiDetection
deriving Repr, DecidableEq

/-- The dict returned by `_analyze_bias`. -/
structure BiasReport where
  score : ℚ
  detected : Bool
  indices : List BiasDetection
  racial : ℤ
  gender : ℤ
  age : ℤ
  religious : ℤ
deriving Repr, DecidableEq

/-- The `overall` sub-dict of the analysis result. -/
structure OverallReport where
  score : ℤ
  riskLevel : String
deriving Repr, DecidableEq

/-- The dict returned by `_generate_summary`. -/
structure Summary where
  trustLens : String
  recommendations : List String
  riskFactors : List String
deriving Repr, DecidableEq

/-- The dict returned by `AdShield.analyze`. -/
structure AnalysisResult where
  promptInjection : InjReport
  pii : PiiReport
  bias : BiasReport
  overall : OverallReport
  summary : Summary
deriving Repr, DecidableEq

/-- Abstraction of the external collaborators `AdShield` relies on:
`injMatches t` is the flattened list of matches that `re.finditer` yields,
pattern table category by category in iteration order, when the injection
patterns are run over `t` (the engine applies it to the lowercased text,
as the source lowercases before scanning); `piiMatches` likewise for the
PII pattern table; `toxicity t` is the TOXIC-label score reported by the
optional `bias_classifier` on `t`, or `none` when the classifier is absent,
fails, or reports a non-toxic label (the source then uses a score of `0`,
which is below the `0.7` gate and therefore equivalent to `none`). -/
structure ReEngine where
  injMatches : List Char → List InjMatch
  piiMatches : List Char → List PiiMatch
  toxicity : List Char → Option ℚ

/-- `AdShield._determine_injection_severity`: `severity_map.get(category, "low")`. -/
def determine_injection_severity (category : String) : String :=
  if category = "system_manipulation" then "critical"
  else if category = "jailbreak_attempts" then "high"
  else if category = "ignore_instructions" then "medium"
  else if category = "role_manipulation" then "medium"
  else "low"

/-- The dict lookup `{"low": 25, "medium": 50, "high": 75, "critical": 100}[severity]`.
The final branch is unreachable from the engine: `determine_injection_severity`
only ever returns one of the four keys (Python would raise `KeyError` there). -/
def severity_score (severity : String) : ℤ :=
  if severity = "low" then 25
  else if severity = "medium" then 50
  else if severity = "high" then 75
  else if severity = "critical" then 100
  else 0

/-- Score contributed by a single injection match. -/
def injMatchScore (m : InjMatch) : ℤ :=
  severity_score (determine_injection_severity m.category)

/-- The match loop of `_analyze_prompt_injection`: running maximum
`total_score` together with the accumulated `detections` list. -/
def injScan (ms : List InjMatch) : ℤ × List InjDetection :=
  ms.foldl
    (fun acc m =>
      let severity := determine_injection_severity m.category
      let score := severity_score severity
      (max acc.1 score,
       acc.2 ++ [{ start := m.start, stop := m.stop, type := m.category,
                   severity := severity, pattern := m.matched }]))
    (0, [])

/-- `AdShield._analyze_prompt_injection` (the source lowercases the text and
scans the lowered text). -/
def analyze_prompt_injection (re : ReEngine) (text : List Char) : InjReport :=
  let ms := re.injMatches (pyLower text)
  let scan := injScan ms
  { score := min scan.1 100,
    detected := decide (0 < scan.2.length),
    indices := scan.2 }

/-- The dict lookup `sensitivity_scores.get(pii_type, 50)`. -/
def pii_sensitivity (piiType : String) : ℤ :=
  if piiType = "ssn" then 100
  else if piiType = "credit_card" then 100
  else if piiType = "passport" then 90
  else if piiType = "email" then 60
  else if piiType = "phone" then 70
  else if piiType = "address" then 50
  else if piiType = "date_of_birth" then 80
  else if piiType = "ip_address" then 30
  else if piiType = "license_plate" then 40
  else 50

/-- The confidence heuristic `0.9 if pii_type in ["ssn", "email", "credit_card"] else 0.7`. -/
def pii_confidence (piiType : String) : ℚ :=
  if piiType = "ssn" ∨ piiType = "email" ∨ piiType = "credit_card" then 9/10 else 7/10

/-- The match loop of `_analyze_pii`. -/
def piiScan (ms : List PiiMatch) : ℤ × List PiiDetection :=
  ms.foldl
    (fun acc m =>
      let score := pii_sensitivity m.piiType
      (max acc.1 score,
       acc.2 ++ [{ start := m.start, stop := m.stop, type := "pii",
                   piiType := m.piiType, confidence := pii_confidence m.piiType }]))
    (0, [])

/-- `AdShield._analyze_pii`. -/
def analyze_pii (re : ReEngine) (text : List Char) : PiiReport :=
  let ms := re.piiMatches text
  let scan := piiScan ms
  { score := min scan.1 100,
    detected := decide (0 < scan.2.length),
    indices := scan.2 }

/-- The fixed negative-indicator lexicon of `_analyze_bias_context`. -/
def negative_words : List (List Char) :=
  ["hate", "stupid", "inferior", "better than", "worse than", "all", "never",
   "always"].map String.toList

/-- The fixed positive-indicator lexicon of `_analyze_bias_context`. -/
def positive_words : List (List Char) :=
  ["respect", "equal", "diverse", "inclusive", "fair",
   "understanding"].map String.toList

/-- `AdShield._analyze_bias_context`.  Note the counts are
`sum(1 for word in lexicon if word in context_lower)`: the number of lexicon
words occurring at least once, not a count of occurrences.  The `keyword`
argument is accepted, and ignored, exactly as in the source. -/
def analyze_bias_context (context : List Char) (keyword : List Char) : ℤ :=
  let context_lower := pyLower context
  let negative_count := (negative_words.filter (fun w => pyIn w context_lower)).length
  let positive_count := (positive_words.filter (fun w => pyIn w context_lower)).length
  let base_score : ℤ := 20
  if negative_count > positive_count then
    min (base_score + (negative_count : ℤ) * 20) 100
  else if positive_count > 0 then
    max (base_score - (positive_count : ℤ) * 10) 0
  else base_score

/-- All start positions of `keyword` in `text`, in increasing order; models
the `while True: pos = text_lower.find(keyword, start_pos) ... start_pos = pos + 1`
loop of `_analyze_bias` (overlapping occurrences included, since the search
resumes at `pos + 1`).  The bias keyword registries contain no empty keyword. -/
def find_all (keyword text : List Char) : List Nat :=
  (List.range text.length).filter fun pos => keyword.isPrefixOf (text.drop pos)

/-- The context slice `text[max(0, pos - 50) : min(len(text), pos + len(keyword) + 50)]`. -/
def context_window (text : List Char) (pos klen : Nat) : List Char :=
  pySlice text (pos - 50) (min text.length (pos + klen + 50))

/-- Intensity assigned to one keyword occurrence: the context window around
it, scored by `_analyze_bias_context`. -/
def bias_occurrence_intensity (text : List Char) (keyword : List Char) (pos : Nat) : ℤ :=
  analyze_bias_context (context_window text pos keyword.length) keyword

/-- The per-bias-type keyword loop of `_analyze_bias`: threads the running
maximum `bias_scores[bias_type]` and appends a detection only when the
occurrence intensity exceeds 30.  `text` is the text being analyzed and
`text_lower` its lowercased copy (computed once by the caller, as in the
source). -/
def biasTypeScan (text text_lower : List Char) (biasType : String)
    (keywords : List String) : ℤ × List BiasDetection :=
  keywords.foldl
    (fun acc kw =>
      (find_all kw.toList text_lower).foldl
        (fun acc2 pos =>
          let bias_intensity := bias_occurrence_intensity text kw.toList pos
          (max acc2.1 bias_intensity,
           if bias_intensity > 30 then
             acc2.2 ++ [{ start := pos, stop := pos + kw.toList.length,
                          type := "bias", biasType := biasType,
                          intensity := bias_intensity }]
           else acc2.2))
        acc)
    (0, [])

/-- `bias_keywords["racial"]`. -/
def racial_keywords : List String :=
  ["race", "ethnicity", "nationality", "skin color", "african", "asian",
   "hispanic", "latino", "white", "black", "brown", "native", "indigenous",
   "arab", "jewish"]

/-- `bias_keywords["gender"]`. -/
def gender_keywords : List String :=
  ["gender", "male", "female", "man", "woman", "boy", "girl", "masculine",
   "feminine", "transgender", "non-binary", "lgbtq"]

/-- `bias_keywords["age"]`. -/
def age_keywords : List String :=
  ["age", "old", "young", "elderly", "senior", "teenager", "child", "adult",
   "millennial", "boomer", "generation"]

/-- `bias_keywords["religious"]`. -/
def religious_keywords : List String :=
  ["religion", "christian", "muslim", "jewish", "hindu", "buddhist",
   "atheist", "catholic", "protestant", "islam", "judaism", "christianity"]

/-- `bias_keywords["socioeconomic"]`. -/
def socioeconomic_keywords : List String :=
  ["poor", "rich", "wealthy", "poverty", "homeless", "unemployed",
   "working class", "middle class", "upper class", "income", "salary"]

/-- `AdShield._analyze_bias`.  The five per-type scans run in the dict
iteration order of `bias_keywords` and share one `detections` list; the
optional classifier signal joins the score pool as the extra
`bias_scores["overall"]` entry when its TOXIC score exceeds `0.7`.  All
per-type scores are nonnegative (they start at 0 and only grow), so
`max(bias_scores.values())` coincides with `listMax`. -/
def analyze_bias (re : ReEngine) (text : List Char) : BiasReport :=
  let text_lower := pyLower text
  let racial := biasTypeScan text text_lower "racial" racial_keywords
  let gender := biasTypeScan text text_lower "gender" gender_keywords
  let age := biasTypeScan text text_lower "age" age_keywords
  let religious := biasTypeScan text text_lower "religious" religious_keywords
  let socioeconomic := biasTypeScan text text_lower "socioeconomic" socioeconomic_keywords
  let toxicity_pool : List ℚ :=
    match re.toxicity (text.take 512) with
    | some toxicity_score =>
        if toxicity_score > 7/10 then [min (toxicity_score * 100) 100] else []
    | none => []
  let overall_bias_score :=
    listMax (([racial.1, gender.1, age.1, religious.1, socioeconomic.1].map
      (fun z => (z : ℚ))) ++ toxicity_pool)
  let detections := racial.2 ++ gender.2 ++ age.2 ++ religious.2 ++ socioeconomic.2
  { score := min overall_bias_score 100,
    detected := decide (0 < detections.length),
    indices := detections,
    racial := racial.1,
    gender := gender.1,
    age := age.1,
    religious := religious.1 }

/-- `AdShield._calculate_overall_score`, applied to the three category
scores read off the reports. -/
def calculate_overall_score (injectionScore piiScore biasScore : ℚ) : ℤ :=
  let weighted_score := injectionScore * (4/10) + piiScore * (3/10) + biasScore * (3/10)
  min (pyInt weighted_score) 100

/-- `AdShield._determine_risk_level`. -/
def determine_risk_level (score : ℤ) : String :=
  if score ≥ 80 then "high" else if score ≥ 50 then "medium" else "low"

/-- The `risk_descriptions[risk_level]` lookup of
`_generate_trust_lens_summary`; the final branch is unreachable (Python
would raise `KeyError` for a level outside the three bands). -/
def risk_description (risk_level : String) : String :=
  if risk_level = "low" then
    "The analyzed content presents minimal security risks and appears safe for processing."
  else if risk_level = "medium" then
    "The content contains some concerning elements that require attention and monitoring."
  else if risk_level = "high" then
    "The content presents significant security risks and requires immediate review before processing."
  else ""

/-- `AdShield._generate_trust_lens_summary`.  The source joins
`set(item["biasType"] for item in ...)` with commas; Python set iteration
order is unspecified, modelled here as first-occurrence order. -/
def generate_trust_lens_summary (inj : InjReport) (pii : PiiReport)
    (bias : BiasReport) (risk_level : String) : String :=
  let parts1 := [risk_description risk_level]
  let parts2 := parts1 ++
    (if inj.detected then
      ["Detected " ++ toString inj.indices.length ++
       " potential prompt injection attempt(s) that could compromise AI system behavior."]
     else [])
  let parts3 := parts2 ++
    (if pii.detected then
      ["Identified " ++ toString pii.indices.length ++
       " instance(s) of personally identifiable information requiring protection."]
     else [])
  let bias_types := (bias.indices.map (fun d => d.biasType)).eraseDups
  let parts4 := parts3 ++
    (if bias.detected then
      ["Found potential bias indicators related to: " ++
       String.intercalate ", " bias_types ++ "."]
     else [])
  String.intercalate " " parts4

/-- `AdShield._generate_summary`.  When no category is detected the source
appends the no-risk factor and recommendation after building the trust
lens. -/
def generate_summary (inj : InjReport) (pii : PiiReport) (bias : BiasReport)
    (risk_level : String) : Summary :=
  let risk_factors :=
    (if inj.detected then ["Potential prompt injection attempts detected"] else []) ++
    (if pii.detected then ["Personally identifiable information found in content"] else []) ++
    (if bias.detected then ["Potential bias indicators found in content"] else [])
  let recommendations :=
    (if inj.detected then ["Review and sanitize user inputs before processing"] else []) ++
    (if pii.detected then ["Implement PII masking or removal procedures"] else []) ++
    (if bias.detected then ["Review content for inclusive language and bias mitigation"] else [])
  let trust_lens := generate_trust_lens_summary inj pii bias risk_level
  { trustLens := trust_lens,
    recommendations :=
      if risk_factors.isEmpty then
        recommendations ++ ["Content appears safe for processing"]
      else recommendations,
    riskFactors :=
      if risk_factors.isEmpty then
        risk_factors ++ ["No significant security risks detected"]
      else risk_factors }

/-- `AdShield.analyze`: injection detection on the input text alone, PII
and bias detection on `f"{text} {generated_output}".strip()`. -/
def analyze (re : ReEngine) (text generated_output : List Char) : AnalysisResult :=
  let full_text := pyStrip (text ++ [' '] ++ generated_output)
  let prompt_injection := analyze_prompt_injection re text
  let pii_analysis := analyze_pii re full_text
  let bias_analysis := analyze_bias re full_text
  let overall_score :=
    calculate_overall_score (prompt_injection.score : ℚ) (pii_analysis.score : ℚ)
      bias_analysis.score
  let risk_level := determine_risk_level overall_score
  let summary := generate_summary prompt_injection pii_analysis bias_analysis risk_level
  { promptInjection := prompt_injection,
    pii := pii_analysis,
    bias := bias_analysis,
    overall := { score := overall_score, riskLevel := risk_level },
    summary := summary }

/-- A parsed Python JSON value (`json.loads` result). -/
inductive PyJson where
  | null : PyJson
  | bool (b : Bool) : PyJson
  | num (q : ℚ) : PyJson
  | str (s : String) : PyJson
  | arr (items : List PyJson) : PyJson
  | obj (fields : List (String × PyJson)) : PyJson
deriving Repr

/-- Abstraction of the external `json` library used by
`gemini_analyzer.py`: `loads` returns `none` exactly when Python raises
`json.JSONDecodeError`, and `dumps` serialises a value. -/
structure JsonLib where
  loads : String → Option PyJson
  dumps : PyJson → String

/-- Dictionary field lookup (`d[key]` on a parsed JSON object). -/
def PyJson.getField (j : PyJson) (key : String) : Option PyJson :=
  match j with
  | PyJson.obj fields =>
      match fields.find? (fun f => f.1 == key) with
      | some f => some f.2
      | none => none
  | _ => none

/-- The `required_fields` list of `_process_gemini_response`. -/
def required_fields : List String :=
  ["enhancedAnalysis", "technicalDetails", "recommendations", "confidence"]

/-- `_get_default_field_value` of `gemini_analyzer.py`. -/
def get_default_field_value (field : String) : PyJson :=
  if field = "enhancedAnalysis" then
    PyJson.obj
      [("riskAssessment", PyJson.str "Unable to generate detailed risk assessment"),
       ("contextualInsights", PyJson.str "Analysis incomplete due to processing error"),
       ("securityImplications", PyJson.str "Please review findings manually"),
       ("mitigationStrategies", PyJson.arr [PyJson.str "Conduct manual security review"])]
  else if field = "technicalDetails" then
    PyJson.obj
      [("promptInjectionAnalysis", PyJson.str "Analysis unavailable"),
       ("piiAnalysis", PyJson.str "Analysis unavailable"),
       ("biasAnalysis", PyJson.str "Analysis unavailable")]
  else if field = "recommendations" then
    PyJson.obj
      [("immediate", PyJson.arr [PyJson.str "Review content manually"]),
       ("shortTerm", PyJson.arr [PyJson.str "Implement additional security measures"]),
       ("longTerm", PyJson.arr [PyJson.str "Establish comprehensive content review process"])]
  else if field = "confidence" then
    PyJson.obj
      [("overall", PyJson.num (1/2)),
       ("reasoning", PyJson.str "Analysis incomplete due to processing limitations")]
  else PyJson.obj []

/-- The `for field in required_fields: if field not in parsed: parsed[field] = ...`
loop of `_process_gemini_response` (Python dict assignment appends a new key
at the end). -/
def fill_required_fields (fields : List (String × PyJson)) : List (String × PyJson) :=
  required_fields.foldl
    (fun acc field =>
      if acc.any (fun f => f.1 == field) then acc
      else acc ++ [(field, get_default_field_value field)])
    fields

/-- The `fallback_response` dict literal of `_fallback_analysis`.
`none` models the empty dict `{}` passed by `_process_gemini_response` on a
parse failure (every `.get` then yields its default: score `0`, risk level
`"unknown"`).  Numeric scores are rendered with `toString`, idealising the
Python numeral formatting of the f-strings. -/
def fallback_response (adshield_report : Option AnalysisResult) : PyJson :=
  let overall_score : String :=
    match adshield_report with
    | some r => toString r.overall.score
    | none => "0"
  let risk_level : String :=
    match adshield_report with
    | some r => r.overall.riskLevel
    | none => "unknown"
  let inj_score : String :=
    match adshield_report with
    | some r => toString r.promptInjection.score
    | none => "0"
  let pii_score : String :=
    match adshield_report with
    | some r => toString r.pii.score
    | none => "0"
  let bias_score : String :=
    match adshield_report with
    | some r => toString r.bias.score
    | none => "0"
  PyJson.obj
    [("enhancedAnalysis", PyJson.obj
       [("riskAssessment", PyJson.str
          ("Content assessed with " ++ overall_score ++ "/100 risk score (" ++
           risk_level ++ " risk level). AdShield analysis completed successfully.")),
        ("contextualInsights", PyJson.str
          "Automated analysis completed. Review specific findings for detailed security assessment."),
        ("securityImplications", PyJson.str
          "Refer to AdShield findings for specific security considerations."),
        ("mitigationStrategies", PyJson.arr
          [PyJson.str "Review all flagged content sections",
           PyJson.str "Apply appropriate security measures based on findings",
           PyJson.str "Monitor for similar patterns in future content"])]),
     ("technicalDetails", PyJson.obj
       [("promptInjectionAnalysis", PyJson.str
          ("Prompt injection score: " ++ inj_score ++ "/100")),
        ("piiAnalysis", PyJson.str ("PII detection score: " ++ pii_score ++ "/100")),
        ("biasAnalysis", PyJson.str ("Bias analysis score: " ++ bias_score ++ "/100"))]),
     ("recommendations", PyJson.obj
       [("immediate", PyJson.arr [PyJson.str "Review AdShield findings"]),
        ("shortTerm", PyJson.arr [PyJson.str "Implement findings-based security measures"]),
        ("longTerm", PyJson.arr [PyJson.str "Establish regular content security monitoring"])]),
     ("confidence", PyJson.obj
       [("overall", PyJson.num (4/5)),
        ("reasoning", PyJson.str
          "High confidence in automated analysis results. Enhanced AI insights unavailable.")])]

/-- `_fallback_analysis`: `json.dumps(fallback_response, indent=2)`. -/
def fallback_analysis (jl : JsonLib) (adshield_report : Option AnalysisResult) : String :=
  jl.dumps (fallback_response adshield_report)

/-- The markdown-fence cleanup at the top of `_process_gemini_response`. -/
def clean_response (s : List Char) : List Char :=
  let c1 := pyStrip s
  let c2 := if ("```json".toList).isPrefixOf c1 then c1.drop 7 else c1
  let c3 := if ("```".toList).isSuffixOf c2 then c2.take (c2.length - 3) else c2
  pyStrip c3

/-- `_process_gemini_response`.  A `json.JSONDecodeError` from `loads` is
caught and answered with `_fallback_analysis({})`; a parse result that is
not an object makes the field-membership loop raise, which the generic
`except` clause also answers with `_fallback_analysis({})`. -/
def process_gemini_response (jl : JsonLib) (response_text : String) : String :=
  let cleaned_response := (clean_response response_text.toList).asString
  match jl.loads cleaned_response with
  | none => fallback_analysis jl none
  | some (PyJson.obj fields) => jl.dumps (PyJson.obj (fill_required_fields fields))
  | some _ => fallback_analysis jl none

/-- `analyze_with_gemini`: the external model call is abstracted as
`model_response` (`none` when `model.generate_content` raises, in which case
the `except` clause returns `_fallback_analysis(adshield_report)`). -/
def analyze_with_gemini (jl : JsonLib) (adshield_report : AnalysisResult)
    (model_response : Option String) : String :=
  match model_response with
  | some response_text => process_gemini_response jl response_text
  | none => fallback_analysis jl (some adshield_report)

/-- The numeric value at `j["confidence"]["overall"]`, when present. -/
def confidence_overall (j : PyJson) : Option ℚ :=
  match (j.getField "confidence").bind (fun c => PyJson.getField c "overall") with
  | some (PyJson.num q) => some q
  | _ => none

/-- The string at `j["confidence"]["reasoning"]`, when present. -/
def confidence_reasoning (j : PyJson) : Option String :=
  match (j.getField "confidence").bind (fun c => PyJson.getField c "reasoning") with
  | some (PyJson.str s) => some s
  | _ => none

/-- Number of occurrences (overlapping starts) of `needle` in `hay`. -/
def count_occurrences (needle hay : List Char) : Nat :=
  (find_all needle hay).length

/-- The context-window intensity exactly as claim C6 words it: the counts
are counts of occurrences of the lexicon words within the window (so a word
repeated in the window is counted once per occurrence).  This is the
claim-side reading, kept for comparison with `analyze_bias_context`, which
counts each lexicon word at most once. -/
def claimed_intensity (context : List Char) : ℤ :=
  let context_lower := pyLower context
  let negative_count := (negative_words.map (fun w => count_occurrences w context_lower)).sum
  let positive_count := (positive_words.map (fun w => count_occurrences w context_lower)).sum
  if negative_count > positive_count then min (20 + (negative_count : ℤ) * 20) 100
  else if positive_count > 0 then max (20 - (positive_count : ℤ) * 10) 0
  else 20

/-- Claim C6 amended: the same intensity formula with the counts read as
the number of lexicon words occurring at least once in the window. -/
def amended_intensity (context : List Char) : ℤ :=
  let context_lower := pyLower context
  let negative_count := (negative_words.filter (fun w => pyIn w context_lower)).length
  let positive_count := (positive_words.filter (fun w => pyIn w context_lower)).length
  if negative_count > positive_count then min (20 + (negative_count : ℤ) * 20) 100
  else if positive_count > 0 then max (20 - (positive_count : ℤ) * 10) 0
  else 20

/-- An engine whose pattern scans find nothing and whose classifier is
absent (the `bias_classifier = None` fallback path of `_init_models`). -/
def emptyEngine : ReEngine :=
  { injMatches := fun _ => [], piiMatches := fun _ => [], toxicity := fun _ => none }

/-- Three injection matches: two from categories outside the severity
table (severity defaults to `"low"`) and one `system_manipulation` match
(severity `"critical"`). -/
def lowLowCriticalMatches : List InjMatch :=
  [{ category := "other_a", start := 0, stop := 1, matched := "a" },
   { category := "other_b", start := 1, stop := 2, matched := "b" },
   { category := "system_manipulation", start := 2, stop := 3, matched := "c" }]

/-- An engine whose injection scan yields `lowLowCriticalMatches`. -/
def lowLowCriticalEngine : ReEngine :=
  { emptyEngine with injMatches := fun _ => lowLowCriticalMatches }

/-- A JSON library stub whose `loads` always fails; used to witness the
parse-failure path. -/
def failingJsonLib : JsonLib :=
  { loads := fun _ => none, dumps := fun j => toString (repr j) }

/-- A concrete analysis result, used to instantiate closed witnesses. -/
def sample_result : AnalysisResult := analyze emptyEngine "hi".toList []

/-- All keyword occurrences scanned for one bias type: for each keyword of
the lexicon, every start position found in the lowercased text. -/
def type_occurrences (text_lower : List Char) (keywords : List String) : List (String × Nat) :=
  (keywords.map (fun kw => (find_all kw.toList text_lower).map (fun pos => (kw, pos)))).flatten

section Lemmas

lemma le_foldl_max {α : Type} [LinearOrder α] (l : List α) (a : α) :
    a ≤ l.foldl max a := by
  induction l generalizing a with
  | nil => exact le_refl a
  | cons x xs ih => exact le_trans (le_max_left a x) (ih (max a x))

lemma foldl_max_le {α : Type} [LinearOrder α] (l : List α) (a c : α)
    (h : a ≤ c) (hl : ∀ x ∈ l, x ≤ c) : l.foldl max a ≤ c := by
  induction l generalizing a with
  | nil => exact h
  | cons x xs ih =>
      exact ih (max a x) (max_le h (hl x (List.mem_cons_self x xs))) fun y hy =>
        hl y (List.mem_cons_of_mem x hy)

lemma injScan_loop (ms : List InjMatch) (acc : ℤ × List InjDetection) :
    ms.foldl
      (fun acc m =>
        let severity := determine_injection_severity m.category
        let score := severity_score severity
        (max acc.1 score,
         acc.2 ++ [{ start := m.start, stop := m.stop, type := m.category,
                     severity := severity, pattern := m.matched }]))
      acc
    = ((ms.map injMatchScore).foldl max acc.1,
       acc.2 ++ ms.map (fun m =>
         { start := m.start, stop := m.stop, type := m.category,
           severity := determine_injection_severity m.category,
           pattern := m.matched })) := by
  induction ms generalizing acc with
  | nil => simp
  | cons m ms ih => simp [ih, injMatchScore]

lemma injScan_eq (ms : List InjMatch) :
    injScan ms
      = ((ms.map injMatchScore).foldl max 0,
         ms.map (fun m =>
           { start := m.start, stop := m.stop, type := m.category,
             severity := determine_injection_severity m.category,
             pattern := m.matched })) := by
  have h := injScan_loop ms (0, [])
  simpa [injScan] using h

lemma injMatchScore_nonneg (m : InjMatch) : 0 ≤ injMatchScore m := by
  unfold injMatchScore severity_score determine_injection_severity
  split_ifs <;> norm_num

lemma injMatchScore_le_100 (m : InjMatch) : injMatchScore m ≤ 100 := by
  unfold injMatchScore severity_score determine_injection_severity
  split_ifs <;> norm_num

lemma piiScan_loop (ms : List PiiMatch) (acc : ℤ × List PiiDetection) :
    ms.foldl
      (fun acc m =>
        let score := pii_sensitivity m.piiType
        (max acc.1 score,
         acc.2 ++ [{ start := m.start, stop := m.stop, type := "pii",
                     piiType := m.piiType, confidence := pii_confidence m.piiType }]))
      acc
    = ((ms.map (fun m => pii_sensitivity m.piiType)).foldl max acc.1,
       acc.2 ++ ms.map (fun m =>
         { start := m.start, stop := m.stop, type := "pii",
           piiType := m.piiType, confidence := pii_confidence m.piiType })) := by
  induction ms generalizing acc with
  | nil => simp
  | cons m ms ih => simp [ih]

lemma pii_sensitivity_nonneg (t : String) : 0 ≤ pii_sensitivity t := by
  unfold pii_sensitivity
  split_ifs <;> norm_num

lemma pii_sensitivity_le_100 (t : String) : pii_sensitivity t ≤ 100 := by
  unfold pii_sensitivity
  split_ifs <;> norm_num

lemma analyze_bias_context_nonneg (c k : List Char) : 0 ≤ analyze_bias_context c k := by
  unfold analyze_bias_context
  dsimp only
  split_ifs <;> [exact le_min (by positivity) (by norm_num); exact le_max_right _ _;
    norm_num]

lemma analyze_bias_context_le_100 (c k : List Char) : analyze_bias_context c k ≤ 100 := by
  unfold analyze_bias_context
  dsimp only
  split_ifs with h1 h2
  · exact min_le_right _ _
  · refine max_le ?_ (by norm_num)
    have : (0 : ℤ) ≤ ((positive_words.filter
        (fun w => pyIn w (pyLower c))).length : ℤ) * 10 := by positivity
    omega
  · norm_num

lemma biasTypeScan_inner (text : List Char) (biasType kw : String)
    (ps : List Nat) (acc : ℤ × List BiasDetection) :
    ps.foldl
      (fun acc2 pos =>
        let bias_intensity := bias_occurrence_intensity text kw.toList pos
        (max acc2.1 bias_intensity,
         if bias_intensity > 30 then
           acc2.2 ++ [{ start := pos, stop := pos + kw.toList.length,
                        type := "bias", biasType := biasType,
                        intensity := bias_intensity }]
         else acc2.2))
      acc
    = ((ps.map (fun pos => bias_occurrence_intensity text kw.toList pos)).foldl max acc.1,
       acc.2 ++ (ps.filter
           (fun pos => bias_occurrence_intensity text kw.toList pos > 30)).map
         (fun pos =>
           { start := pos, stop := pos + kw.toList.length, type := "bias",
             biasType := biasType,
             intensity := bias_occurrence_intensity text kw.toList pos })) := by
  induction ps generalizing acc with
  | nil => simp
  | cons p ps ih =>
      rw [List.foldl_cons, ih]
      by_cases h : bias_occurrence_intensity text kw.data p > 30 <;>
        simp [h, List.filter_cons, List.append_assoc]

lemma biasTypeScan_eq (text tl : List Char) (biasType : String) (kws : List String) :
    biasTypeScan text tl biasType kws
    = (((type_occurrences tl kws).map
          (fun o => bias_occurrence_intensity text o.1.toList o.2)).foldl max 0,
       ((type_occurrences tl kws).filter
           (fun o => bias_occurrence_intensity text o.1.toList o.2 > 30)).map
         (fun o =>
           { start := o.2, stop := o.2 + o.1.toList.length, type := "bias",
             biasType := biasType,
             intensity := bias_occurrence_intensity text o.1.toList o.2 })) := by
  suffices h : ∀ (kws : List String) (acc : ℤ × List BiasDetection),
      kws.foldl
        (fun acc kw =>
          (find_all kw.toList tl).foldl
            (fun acc2 pos =>
              let bias_intensity := bias_occurrence_intensity text kw.toList pos
              (max acc2.1 bias_intensity,
               if bias_intensity > 30 then
                 acc2.2 ++ [{ start := pos, stop := pos + kw.toList.length,
                              type := "bias", biasType := biasType,
                              intensity := bias_intensity }]
               else acc2.2))
            acc)
        acc
      = (((type_occurrences tl kws).map
            (fun o => bias_occurrence_intensity text o.1.toList o.2)).foldl max acc.1,
         acc.2 ++ ((type_occurrences tl kws).filter
             (fun o => bias_occurrence_intensity text o.1.toList o.2 > 30)).map
           (fun o =>
             { start := o.2, stop := o.2 + o.1.toList.length, type := "bias",
               biasType := biasType,
               intensity := bias_occurrence_intensity text o.1.toList o.2 })) by
    have h0 := h kws (0, [])
    simpa [biasTypeScan] using h0
  intro kws
  induction kws with
  | nil => intro acc; simp [type_occurrences]
  | cons kw kws ih =>
      intro acc
      rw [List.foldl_cons, biasTypeScan_inner, ih]
      simp [type_occurrences, List.foldl_append, List.filter_append, List.map_map,
        Function.comp_def, List.append_assoc, List.filter_map]

lemma ratFloor_eq (q : ℚ) : q.floor = ⌊q⌋ :=
  (Rat.floor_def' q).trans Rat.floor_def.symm

lemma calculate_overall_score_nonneg (i p b : ℚ)
    (hi : 0 ≤ i) (hp : 0 ≤ p) (hb : 0 ≤ b) : 0 ≤ calculate_overall_score i p b := by
  unfold calculate_overall_score pyInt
  dsimp only
  have hw : 0 ≤ i * (4/10) + p * (3/10) + b * (3/10) := by positivity
  rw [if_pos hw, ratFloor_eq]
  refine le_min ?_ (by norm_num)
  exact Int.le_floor.2 (by exact_mod_cast hw)

lemma calculate_overall_score_le_100 (i p b : ℚ) :
    calculate_overall_score i p b ≤ 100 :=
  min_le_right _ _

lemma piiScan_eq (ms : List PiiMatch) :
    piiScan ms
      = ((ms.map (fun m => pii_sensitivity m.piiType)).foldl max 0,
         ms.map (fun m =>
           { start := m.start, stop := m.stop, type := "pii",
             piiType := m.piiType, confidence := pii_confidence m.piiType })) := by
  have h := piiScan_loop ms (0, [])
  simpa [piiScan] using h

lemma injScan_fst_nonneg (ms : List InjMatch) : 0 ≤ (injScan ms).1 := by
  rw [injScan_eq]
  exact le_foldl_max _ 0

lemma piiScan_fst_nonneg (ms : List PiiMatch) : 0 ≤ (piiScan ms).1 := by
  rw [piiScan_eq]
  exact le_foldl_max _ 0

lemma listMax_nonneg (l : List ℚ) : 0 ≤ listMax l :=
  le_foldl_max l 0

lemma detected_helper {α : Type} (L : List α) :
    decide (0 < L.length) = true ↔ L ≠ [] := by
  simp [List.length_pos]

end Lemmas

/-- Claim C1: for every input text the injection score is the maximum of
the per-match scores (severity from the fixed category table, severity
mapped through `{low: 25, medium: 50, high: 75, critical: 100}`), `0`
when there are no matches; and a text with two low-severity matches and one
critical-severity match scores exactly `100` (a max, never a sum or an
average). -/
theorem injection_score_is_max_not_sum :
    (∀ (re : ReEngine) (text : List Char),
        (analyze_prompt_injection re text).score
          = ((re.injMatches (pyLower text)).map injMatchScore).foldl max 0)
    ∧ (analyze_prompt_injection emptyEngine "nothing here".toList).score = 0
    ∧ (analyze_prompt_injection lowLowCriticalEngine "x".toList).score = 100 := by
  refine ⟨?_, by decide, by decide⟩
  intro re text
  show min (injScan (re.injMatches (pyLower text))).1 100 = _
  rw [injScan_eq]
  refine min_eq_left (foldl_max_le _ _ _ (by norm_num) ?_)
  intro x hx
  obtain ⟨m, -, rfl⟩ := List.mem_map.1 hx
  exact injMatchScore_le_100 m

/-- Claim C2: for every triple of (nonnegative) category scores, the
overall score is the weighted sum `0.4·inj + 0.3·pii + 0.3·bias`, floored
to an integer and capped at `100`. -/
theorem overall_score_weighted_floor_capped (i p b : ℚ)
    (hi : 0 ≤ i) (hp : 0 ≤ p) (hb : 0 ≤ b) :
    calculate_overall_score i p b
      = min ⌊(4/10 : ℚ) * i + (3/10 : ℚ) * p + (3/10 : ℚ) * b⌋ 100 := by
  unfold calculate_overall_score pyInt
  dsimp only
  have hw : 0 ≤ i * (4/10) + p * (3/10) + b * (3/10) := by positivity
  rw [if_pos hw, ratFloor_eq]
  have harg : i * (4/10) + p * (3/10) + b * (3/10)
      = (4/10 : ℚ) * i + (3/10 : ℚ) * p + (3/10 : ℚ) * b := by ring
  rw [harg]

/-- Witness for C2 at the concrete triple `(100, 50, 0)`. -/
theorem overall_score_weighted_floor_capped_witness :
    (0 : ℚ) ≤ 100 ∧ (0 : ℚ) ≤ 50 ∧
    calculate_overall_score 100 50 0
      = min ⌊(4/10 : ℚ) * 100 + (3/10 : ℚ) * 50 + (3/10 : ℚ) * 0⌋ 100 :=
  ⟨by decide, by decide,
   overall_score_weighted_floor_capped 100 50 0 (by decide) (by decide) le_rfl⟩

/-- Claim C3: the risk level is `high` iff the overall score is at least
`80`, `medium` iff it lies in `[50, 80)`, `low` iff it is below `50`; in
particular `79 ↦ medium` and `80 ↦ high`. -/
theorem risk_level_thresholds :
    (∀ s : ℤ,
      (determine_risk_level s = "high" ↔ 80 ≤ s)
      ∧ (determine_risk_level s = "medium" ↔ 50 ≤ s ∧ s < 80)
      ∧ (determine_risk_level s = "low" ↔ s < 50))
    ∧ determine_risk_level 79 = "medium"
    ∧ determine_risk_level 80 = "high" := by
  refine ⟨fun s => ?_, by decide, by decide⟩
  unfold determine_risk_level
  split_ifs with h1 h2 <;> simp_all <;> omega

set_option maxHeartbeats 1000000 in
/-- Claim C4: in every analysis result, each of the three category reports
has `detected = true` exactly when its detection list is non-empty. -/
theorem detected_iff_detections_nonempty (re : ReEngine)
    (text generated_output : List Char) :
    ((analyze re text generated_output).promptInjection.detected = true
      ↔ (analyze re text generated_output).promptInjection.indices ≠ [])
    ∧ ((analyze re text generated_output).pii.detected = true
      ↔ (analyze re text generated_output).pii.indices ≠ [])
    ∧ ((analyze re text generated_output).bias.detected = true
      ↔ (analyze re text generated_output).bias.indices ≠ []) := by
  exact ⟨detected_helper _, detected_helper _, detected_helper _⟩

/-- Claim C5: every category score and the overall score of every analysis
result lies in `[0, 100]`. -/
theorem scores_within_bounds (re : ReEngine) (text generated_output : List Char) :
    0 ≤ (analyze re text generated_output).promptInjection.score
    ∧ (analyze re text generated_output).promptInjection.score ≤ 100
    ∧ 0 ≤ (analyze re text generated_output).pii.score
    ∧ (analyze re text generated_output).pii.score ≤ 100
    ∧ 0 ≤ (analyze re text generated_output).bias.score
    ∧ (analyze re text generated_output).bias.score ≤ 100
    ∧ 0 ≤ (analyze re text generated_output).overall.score
    ∧ (analyze re text generated_output).overall.score ≤ 100 := by
  have h1 : 0 ≤ (analyze re text generated_output).promptInjection.score :=
    le_min (injScan_fst_nonneg _) (by norm_num)
  have h2 : (analyze re text generated_output).promptInjection.score ≤ 100 :=
    min_le_right _ _
  have h3 : 0 ≤ (analyze re text generated_output).pii.score :=
    le_min (piiScan_fst_nonneg _) (by norm_num)
  have h4 : (analyze re text generated_output).pii.score ≤ 100 :=
    min_le_right _ _
  have h5 : 0 ≤ (analyze re text generated_output).bias.score :=
    le_min (listMax_nonneg _) (by norm_num)
  have h6 : (analyze re text generated_output).bias.score ≤ 100 :=
    min_le_right _ _
  have h7 : 0 ≤ (analyze re text generated_output).overall.score :=
    calculate_overall_score_nonneg _ _ _ (by exact_mod_cast h1) (by exact_mod_cast h3) h5
  have h8 : (analyze re text generated_output).overall.score ≤ 100 :=
    calculate_overall_score_le_100 _ _ _
  exact ⟨h1, h2, h3, h4, h5, h6, h7, h8⟩

/-- Claim C6, counterexample: on the text `"race hate hate"` the keyword
`"race"` occurs at position 0 and its context window is the whole text.
The code counts each lexicon word at most once (`"hate"` is present, so
`negative_count = 1`, intensity `min(20 + 1*20, 100) = 40`), while the
claim counts occurrences of the lexicon words (`"hate"` occurs twice, so
`negative_count = 2`, intensity `min(20 + 2*20, 100) = 60`). -/
theorem bias_intensity_occurrence_count_counterexample :
    bias_occurrence_intensity "race hate hate".toList "race".toList 0 = 40
    ∧ claimed_intensity (context_window "race hate hate".toList 0 "race".toList.length) = 60
    ∧ bias_occurrence_intensity "race hate hate".toList "race".toList 0
        ≠ claimed_intensity (context_window "race hate hate".toList 0 "race".toList.length) :=
  ⟨by decide, by decide, by decide⟩

/-- Claim C6 as amended: for every bias-keyword occurrence, the intensity
of its 50-character context window is `20` as a base, `min(20 + n·20, 100)`
when the number `n` of negative-lexicon words present in the window exceeds
the number `p` of positive-lexicon words present, and `max(20 − p·10, 0)`
when it does not and `p > 0` — where `n` and `p` count distinct lexicon
words occurring at least once, not occurrences. -/
theorem bias_intensity_distinct_word_counts (text keyword : List Char) (pos : Nat) :
    bias_occurrence_intensity text keyword pos
      = amended_intensity (context_window text pos keyword.length) := rfl

/-- Claim C7: a keyword occurrence is recorded as a detection in the bias
report exactly when its context-window intensity exceeds 30, while every
occurrence (also those of intensity at most 30) feeds the per-bias-type
running maximum that becomes the per-type score; and the bias report is
assembled from exactly these per-type scans. -/
theorem bias_detection_gate_and_running_max :
    (∀ (text text_lower : List Char) (biasType : String) (kws : List String),
      (biasTypeScan text text_lower biasType kws).2
        = ((type_occurrences text_lower kws).filter
            (fun o => bias_occurrence_intensity text o.1.toList o.2 > 30)).map
            (fun o =>
              { start := o.2, stop := o.2 + o.1.toList.length, type := "bias",
                biasType := biasType,
                intensity := bias_occurrence_intensity text o.1.toList o.2 })
      ∧ (biasTypeScan text text_lower biasType kws).1
        = ((type_occurrences text_lower kws).map
            (fun o => bias_occurrence_intensity text o.1.toList o.2)).foldl max 0)
    ∧ ∀ (re : ReEngine) (t : List Char),
        (analyze_bias re t).indices
          = (biasTypeScan t (pyLower t) "racial" racial_keywords).2
            ++ (biasTypeScan t (pyLower t) "gender" gender_keywords).2
            ++ (biasTypeScan t (pyLower t) "age" age_keywords).2
            ++ (biasTypeScan t (pyLower t) "religious" religious_keywords).2
            ++ (biasTypeScan t (pyLower t) "socioeconomic" socioeconomic_keywords).2
        ∧ (analyze_bias re t).racial
            = (biasTypeScan t (pyLower t) "racial" racial_keywords).1 := by
  refine ⟨fun text tl btype kws => ?_, fun re t => ⟨rfl, rfl⟩⟩
  rw [biasTypeScan_eq]
  exact ⟨rfl, rfl⟩

/-- Claim C8: `analyze` runs injection detection on the input text alone
(the generated output never affects the injection report) and runs PII and
bias detection on the trimmed concatenation of input, one space, and
generated output. -/
theorem analyze_routing (re : ReEngine) (text generated_output g2 : List Char) :
    (analyze re text generated_output).promptInjection = analyze_prompt_injection re text
    ∧ (analyze re text generated_output).pii
        = analyze_pii re (pyStrip (text ++ [' '] ++ generated_output))
    ∧ (analyze re text generated_output).bias
        = analyze_bias re (pyStrip (text ++ [' '] ++ generated_output))
    ∧ (analyze re text generated_output).promptInjection
        = (analyze re text g2).promptInjection :=
  ⟨rfl, rfl, rfl, rfl⟩

/-- Claim C9: when the enrichment call fails (`model_response = none`) or
its response is not parsable JSON, the caller answers with the
deterministic fallback built from the already-computed analysis result
alone (respectively from the empty dict), whose confidence placeholder is
`0.8 ∈ [0.5, 0.8]` and whose confidence reasoning notes that enhanced AI
insights are unavailable. -/
theorem gemini_fallback_on_failure (jl : JsonLib) (rep : AnalysisResult) :
    analyze_with_gemini jl rep none = jl.dumps (fallback_response (some rep))
    ∧ (∀ t : String, jl.loads ((clean_response t.toList).asString) = none →
        analyze_with_gemini jl rep (some t) = jl.dumps (fallback_response none))
    ∧ (∀ r : Option AnalysisResult,
        confidence_overall (fallback_response r) = some (4/5)
        ∧ (1/2 : ℚ) ≤ 4/5 ∧ (4/5 : ℚ) ≤ 4/5)
    ∧ (∃ s : String,
        confidence_reasoning (fallback_response (some rep)) = some s
        ∧ pyIn "unavailable".toList s.toList = true) := by
  refine ⟨rfl, ?_, ?_, ?_⟩
  · intro t ht
    show process_gemini_response jl t = _
    unfold process_gemini_response
    dsimp only
    rw [ht]
    rfl
  · intro r
    refine ⟨?_, by norm_num, le_rfl⟩
    cases r <;> rfl
  · exact ⟨_, rfl, by decide⟩

/-- Witness for C9: a JSON library whose `loads` always fails, applied to
a concrete analysis result and a concrete non-JSON response. -/
theorem gemini_fallback_on_failure_witness :
    failingJsonLib.loads ((clean_response "not json".toList).asString) = none
    ∧ analyze_with_gemini failingJsonLib sample_result (some "not json")
        = failingJsonLib.dumps (fallback_response none) :=
  ⟨rfl, (gemini_fallback_on_failure failingJsonLib sample_result).2.1 "not json" rfl⟩

/-- Claim C10: for category scores in `[0, 100]`, the overall score never
exceeds the largest category score (the weights sum to 1), the final cap
at 100 is never the binding operation (the uncapped floored value is
already at most 100), and a `high` overall risk level requires some
category score of at least 80. -/
theorem overall_le_max_category (i p b : ℚ)
    (hi0 : 0 ≤ i) (hi1 : i ≤ 100) (hp0 : 0 ≤ p) (hp1 : p ≤ 100)
    (hb0 : 0 ≤ b) (hb1 : b ≤ 100) :
    ((calculate_overall_score i p b : ℤ) : ℚ) ≤ max i (max p b)
    ∧ calculate_overall_score i p b = pyInt (i * (4/10) + p * (3/10) + b * (3/10))
    ∧ (determine_risk_level (calculate_overall_score i p b) = "high" →
        80 ≤ i ∨ 80 ≤ p ∨ 80 ≤ b) := by
  have hiM : i ≤ max i (max p b) := le_max_left _ _
  have hpM : p ≤ max i (max p b) := le_trans (le_max_left _ _) (le_max_right _ _)
  have hbM : b ≤ max i (max p b) := le_trans (le_max_right _ _) (le_max_right _ _)
  have hM100 : max i (max p b) ≤ 100 := max_le hi1 (max_le hp1 hb1)
  have hw0 : 0 ≤ i * (4/10) + p * (3/10) + b * (3/10) := by positivity
  have hwM : i * (4/10) + p * (3/10) + b * (3/10) ≤ max i (max p b) := by
    have e1 : i * (4/10) ≤ (max i (max p b)) * (4/10) :=
      mul_le_mul_of_nonneg_right hiM (by norm_num)
    have e2 : p * (3/10) ≤ (max i (max p b)) * (3/10) :=
      mul_le_mul_of_nonneg_right hpM (by norm_num)
    have e3 : b * (3/10) ≤ (max i (max p b)) * (3/10) :=
      mul_le_mul_of_nonneg_right hbM (by norm_num)
    linarith
  have hpy : pyInt (i * (4/10) + p * (3/10) + b * (3/10))
      = ⌊i * (4/10) + p * (3/10) + b * (3/10)⌋ := by
    unfold pyInt
    rw [if_pos hw0, ratFloor_eq]
  have hfle : ⌊i * (4/10) + p * (3/10) + b * (3/10)⌋ ≤ 100 := by
    have h := Int.floor_le_floor (le_trans hwM hM100)
    simpa using h
  have hcalc : calculate_overall_score i p b
      = ⌊i * (4/10) + p * (3/10) + b * (3/10)⌋ := by
    unfold calculate_overall_score
    dsimp only
    rw [hpy]
    exact min_eq_left hfle
  have hfloor_le : ((⌊i * (4/10) + p * (3/10) + b * (3/10)⌋ : ℤ) : ℚ)
      ≤ max i (max p b) := le_trans (Int.floor_le _) hwM
  refine ⟨?_, ?_, ?_⟩
  · rw [hcalc]
    exact hfloor_le
  · rw [hcalc, hpy]
  · intro hhigh
    have h80 : 80 ≤ calculate_overall_score i p b := by
      by_contra hlt
      push_neg at hlt
      unfold determine_risk_level at hhigh
      rw [if_neg (by omega)] at hhigh
      split_ifs at hhigh <;> simp_all
    have hM80 : (80 : ℚ) ≤ max i (max p b) := by
      have hc : ((calculate_overall_score i p b : ℤ) : ℚ) ≤ max i (max p b) := by
        rw [hcalc]
        exact hfloor_le
      have hcast : ((80 : ℤ) : ℚ) ≤ ((calculate_overall_score i p b : ℤ) : ℚ) := by
        exact_mod_cast h80
      have : ((80 : ℤ) : ℚ) = (80 : ℚ) := by norm_num
      linarith
    rcases le_max_iff.1 hM80 with h | h
    · exact Or.inl h
    · rcases le_max_iff.1 h with h2 | h2
      · exact Or.inr (Or.inl h2)
      · exact Or.inr (Or.inr h2)

/-- Witness for C10 at the concrete triple `(100, 100, 100)`. -/
theorem overall_le_max_category_witness :
    (0 : ℚ) ≤ 100
    ∧ (((calculate_overall_score 100 100 100 : ℤ) : ℚ) ≤ max 100 (max 100 100)
      ∧ calculate_overall_score 100 100 100
          = pyInt ((100 : ℚ) * (4/10) + (100 : ℚ) * (3/10) + (100 : ℚ) * (3/10))
      ∧ (determine_risk_level (calculate_overall_score 100 100 100) = "high" →
          80 ≤ (100 : ℚ) ∨ 80 ≤ (100 : ℚ) ∨ 80 ≤ (100 : ℚ))) :=
  ⟨by decide,
   overall_le_max_category 100 100 100 (by decide) le_rfl (by decide) le_rfl
     (by decide) le_rfl⟩

end SentinelAI
